import Mathlib

/-!
Verification of the Active Heating Manager control loop
(src/active-heating-manager-addon/active_heating_manager.py) against its
natural-language specification.

The Python source is shallowly embedded: pure numeric code is translated to
functions over ℚ (Python floats are treated as exact rationals), the remote
entity store is an explicit environment of type String → Option String, and
the per-cycle polling pipeline is a pure function from per-TRV readings to a
poll result.  Python's builtin round (banker's rounding, ties to even) is
modelled exactly by pyRound.
-/

/-! ## Rounding primitives -/

/-- Computable floor of a rational: q.num / q.den with Int euclidean division
(the same value as Int.floor, see ratFloor_eq). -/
def ratFloor (q : ℚ) : ℤ := q.num / q.den

/-- Python 3 round() on a rational: nearest integer, ties to even
(banker's rounding). -/
def pyRound (q : ℚ) : ℤ :=
  if q - ratFloor q < 1/2 then ratFloor q
  else if (1:ℚ)/2 < q - ratFloor q then ratFloor q + 1
  else if ratFloor q % 2 = 0 then ratFloor q else ratFloor q + 1

/-- Source: round(target_temp * 2) / 2 — round to the nearest 0.5. -/
def roundHalfDeg (q : ℚ) : ℚ := (pyRound (q * 2) : ℚ) / 2

/-- Source: max(manual_off_temp, min(manual_on_temp, target_temp)). -/
def pyClamp (lo hi x : ℚ) : ℚ := max lo (min hi x)

/-! ## Dynamic temperature calculation
(calculate_dynamic_temperature, lines 464-529) -/

/-- The two-segment pre-clamp interpolation of calculate_dynamic_temperature:
for avgPos <= 25, target_at_0 = current_boiler_temp and
target_at_25 = current_boiler_temp + 0.5; above 25, interpolate from
target_at_25 to manual_on_temp. -/
def dynInterp (avgPos base manualOn : ℚ) : ℚ :=
  if avgPos ≤ 25 then
    base + ((base + 1/2) - base) * (avgPos / 25)
  else
    (base + 1/2) + (manualOn - (base + 1/2)) * ((avgPos - 25) / 75)

/-- calculate_dynamic_temperature(avg_valve_position, boiler_entity,
manual_on_temp, manual_off_temp), with the boiler's resolved current
temperature passed as base (the source reads it from the boiler entity,
falling back to manual_off_temp). -/
def calculate_dynamic_temperature (avgPos base manualOn manualOff : ℚ) : ℚ :=
  if avgPos ≤ 0 then manualOff
  else roundHalfDeg (pyClamp manualOff manualOn (dynInterp avgPos base manualOn))

/-- round_up_to_nearest_25 (lines 352-363). -/
def round_up_to_nearest_25 (value : ℚ) : ℚ :=
  if value ≤ 0 then 0
  else if value ≤ 25 then 25
  else if value ≤ 50 then 50
  else if value ≤ 75 then 75
  else 100

/-! ## Valve-state resolution (get_valve_state, lines 316-349)
The remote entity store is an environment env : String → Option String
mapping an entity id to its reported state string (none = unreachable or
not found). -/

/-- Python trv_entity_id.split('.', 1) on the character list: everything
before the first dot, and everything after it. -/
def splitAtFirstDot : List Char → List Char × List Char
  | [] => ([], [])
  | c :: cs =>
    if c = '.' then ([], cs)
    else
      let r := splitAtFirstDot cs
      (c :: r.1, r.2)

/-- Python name.replace("_trv", "") on the character list: remove every
(left-to-right, non-overlapping) occurrence of "_trv". -/
def stripTrvAll : List Char → List Char
  | '_' :: 't' :: 'r' :: 'v' :: rest => stripTrvAll rest
  | c :: cs => c :: stripTrvAll cs
  | [] => []

/-- Python state.lower() (the state strings compared against are ASCII). -/
def lowerString (s : String) : String := ⟨s.data.map Char.toLower⟩

/-- Python "'.' in trv_entity_id". -/
def containsDot (s : String) : Bool := s.data.contains '.'

def valveOpenStates : List String := ["open", "opened", "on", "true"]

def valveClosedStates : List String := ["closed", "off", "false"]

/-- The sibling valve-sensor entity ids tried, in order (lines 326-330). -/
def valve_entity_patterns (trvId : String) : List String :=
  let parts := splitAtFirstDot trvId.data
  let name : String := ⟨parts.2⟩
  let nameNoTrv : String := ⟨stripTrvAll parts.2⟩
  ["binary_sensor." ++ name ++ "_valve_state",
   "binary_sensor." ++ nameNoTrv ++ "_valve_state",
   "sensor." ++ name ++ "_valve_state"]

/-- Classification of a (lowercased) valve sensor state string
(lines 338-345): open set, closed set, anything else fails open. -/
def classifyValveState (st : String) : Bool :=
  if valveOpenStates.contains st then true
  else if valveClosedStates.contains st then false
  else true

/-- The state of the first pattern entity the environment knows. -/
def firstFoundState (env : String → Option String) : List String → Option String
  | [] => none
  | p :: ps =>
    match env p with
    | some st => some st
    | none => firstFoundState env ps

/-- The scan loop of get_valve_state: first entity that exists decides;
if none exists, assume open. -/
def scanValvePatterns (env : String → Option String) : List String → Bool
  | [] => true
  | p :: ps =>
    match env p with
    | some st => classifyValveState (lowerString st)
    | none => scanValvePatterns env ps

/-- get_valve_state(trv_entity_id): True = open / assume open,
False = closed. -/
def get_valve_state (env : String → Option String) (trvId : String) : Bool :=
  if containsDot trvId = false then true
  else scanValvePatterns env (valve_entity_patterns trvId)

/-! ## Per-TRV readings and the polling cycle (poll_trv_entities,
lines 532-674)

A TRVData record packages what the environment answers for one configured
TRV during one cycle: whether its climate entity was reachable, its
hvac_action attribute, the result get_valve_state resolves for it, and the
result get_valve_position resolves for it (first sibling sensor with a
parseable float, none otherwise). -/

structure TRVData where
  reachable : Bool
  hvacAction : Option String
  valveOpen : Bool
  position : Option ℚ

structure HeatConfig where
  boilerMode : String
  manualOn : ℚ
  manualOff : ℚ
  checkValveState : Bool
  ignoreHvacAction : Bool
  minValvePositionThreshold : ℚ
  minTrvsHeating : ℕ
  useDynamicTemperature : Bool

/-- The per-TRV demand resolution of the polling loop (lines 556-600):
position-only policy when ignore_hvac_action, otherwise the HVAC-action
policy gated by valve state and the optional position threshold. -/
def trvDemand (cfg : HeatConfig) (d : TRVData) : Bool :=
  if !d.reachable then false
  else if cfg.ignoreHvacAction then
    match d.position with
    | some p => decide (cfg.minValvePositionThreshold < p)
    | none => false
  else
    match d.hvacAction with
    | some a =>
      if a = "heating" then
        if (if cfg.checkValveState then d.valveOpen else true) then
          if 0 < cfg.minValvePositionThreshold then
            match d.position with
            | some p => decide (cfg.minValvePositionThreshold < p)
            | none => true
          else true
        else false
      else false
    | none => false

/-- One iteration of the polling loop accumulator: OR the demand flag,
and (when dynamic temperature is enabled) append the TRV's valve position
if it is demanding and reported one (lines 602-611). -/
def pollStep (cfg : HeatConfig) (acc : Bool × List ℚ) (d : TRVData) : Bool × List ℚ :=
  let isHeating := trvDemand cfg d
  let newPositions :=
    if isHeating && cfg.useDynamicTemperature then
      match d.position with
      | some p => acc.2 ++ [p]
      | none => acc.2
    else acc.2
  (acc.1 || isHeating, newPositions)

/-- The polling loop over all configured TRVs (lines 536-614). -/
def pollAccum (cfg : HeatConfig) (ds : List TRVData) : Bool × List ℚ :=
  ds.foldl (pollStep cfg) (false, [])

inductive BoilerCommand where
  | setManualTemp (t : ℚ)
  | setManualOffTemp (t : ℚ)
  | turnOn
  | turnOff

structure PollResult where
  anyHeating : Bool
  trvCountHeating : ℕ
  avgValvePosition : Option ℚ
  sufficientDemand : Bool
  targetTemp : Option ℚ
  command : Option BoilerCommand

/-- One full polling cycle (lines 616-674): aggregation, threshold gating
and the boiler decision.  boilerCurrentTemp is the boiler thermostat's
resolved current temperature used by the dynamic calculator. -/
def poll_trv_entities (cfg : HeatConfig) (hasBoiler : Bool)
    (boilerCurrentTemp : ℚ) (ds : List TRVData) : PollResult :=
  let acc := pollAccum cfg ds
  let anyTrvHeating := acc.1
  let valvePositions := acc.2
  let preCount : ℕ := if anyTrvHeating then ds.length else 0
  let avgVal : ℚ :=
    round_up_to_nearest_25 (valvePositions.sum / (valvePositions.length : ℚ))
  let avgValvePosition : Option ℚ :=
    if valvePositions.isEmpty then none else some avgVal
  let trvCountHeating : ℕ :=
    if valvePositions.isEmpty then preCount else valvePositions.length
  let sufficientDemand := anyTrvHeating && decide (cfg.minTrvsHeating ≤ trvCountHeating)
  let decision : Option ℚ × Option BoilerCommand :=
    if hasBoiler then
      if sufficientDemand then
        if cfg.boilerMode = "thermostat" then
          if cfg.useDynamicTemperature && !valvePositions.isEmpty then
            let t := calculate_dynamic_temperature avgVal boilerCurrentTemp
              cfg.manualOn cfg.manualOff
            (some t, some (BoilerCommand.setManualTemp t))
          else
            (some cfg.manualOn, some (BoilerCommand.setManualTemp cfg.manualOn))
        else (none, some BoilerCommand.turnOn)
      else
        if cfg.boilerMode = "thermostat" then
          (some cfg.manualOff, some (BoilerCommand.setManualOffTemp cfg.manualOff))
        else (none, some BoilerCommand.turnOff)
    else (none, none)
  { anyHeating := anyTrvHeating, trvCountHeating := trvCountHeating,
    avgValvePosition := avgValvePosition, sufficientDemand := sufficientDemand,
    targetTemp := decision.1, command := decision.2 }

/-! ## Boiler actuation (set_manual_temperature_thermostat lines 222-247,
turn_on_boiler_toggle / turn_off_boiler_toggle lines 278-313)

A BoilerState is the boiler entity's reported reading; the actuation
functions return the list of remote service calls they issue.  ok tells
which set_preset_mode calls the remote accepts (call_service result). -/

structure BoilerState where
  temperature : Option ℚ
  presetMode : Option String
  state : String

inductive ServiceCall where
  | setPresetMode (preset : String)
  | setTemperature (t : ℚ)
  | turnOn
  | turnOff

/-- The preset loop (lines 241-244): issue set_preset_mode calls in order
until the first accepted one. -/
def presetCalls (ok : String → Bool) : List String → List ServiceCall
  | [] => []
  | p :: ps =>
    if ok p then [ServiceCall.setPresetMode p]
    else ServiceCall.setPresetMode p :: presetCalls ok ps

/-- set_manual_temperature_thermostat: the service calls issued for a
demand transition, given the boiler's reading (none = unreachable). -/
def set_manual_temperature_thermostat (reading : Option BoilerState)
    (ok : String → Bool) (t : ℚ) : List ServiceCall :=
  let target := roundHalfDeg t
  match reading with
  | some st =>
    if st.temperature.getD 0 = target ∧ st.presetMode.getD ("none") ≠ "schedule" then []
    else presetCalls ok ["none", "manual", "away"] ++ [ServiceCall.setTemperature target]
  | none => [ServiceCall.setTemperature target]

/-- turn_on_boiler_toggle: no-op when the reported state is already on. -/
def turn_on_boiler_toggle (reading : Option BoilerState) : List ServiceCall :=
  match reading with
  | some st => if st.state = "on" then [] else [ServiceCall.turnOn]
  | none => [ServiceCall.turnOn]

/-- turn_off_boiler_toggle: no-op when the reported state is already off. -/
def turn_off_boiler_toggle (reading : Option BoilerState) : List ServiceCall :=
  match reading with
  | some st => if st.state = "off" then [] else [ServiceCall.turnOff]
  | none => [ServiceCall.turnOff]

/-! ## Concrete readings and configurations used by evaluations -/

/-- Thermostat-mode configuration with min_trvs_heating = 2, no position
threshold, dynamic temperature enabled, valve-state check off. -/
def cfgA : HeatConfig :=
  { boilerMode := "thermostat", manualOn := 21, manualOff := 14,
    checkValveState := false, ignoreHvacAction := false,
    minValvePositionThreshold := 0, minTrvsHeating := 2,
    useDynamicTemperature := true }

/-- Same as cfgA but with min_trvs_heating = 1. -/
def cfgB : HeatConfig :=
  { boilerMode := "thermostat", manualOn := 21, manualOff := 14,
    checkValveState := false, ignoreHvacAction := false,
    minValvePositionThreshold := 0, minTrvsHeating := 1,
    useDynamicTemperature := true }

/-- A TRV demanding heat via hvac_action, with no position sensor. -/
def trvHeatingNoPos : TRVData :=
  { reachable := true, hvacAction := some ("heating"), valveOpen := true,
    position := none }

/-- A TRV not demanding heat (hvac_action idle). -/
def trvIdle : TRVData :=
  { reachable := true, hvacAction := some ("idle"), valveOpen := true,
    position := none }

/-- A TRV demanding heat with a valve position of 10%. -/
def trvHeatingPos10 : TRVData :=
  { reachable := true, hvacAction := some ("heating"), valveOpen := true,
    position := some 10 }

def dsA : List TRVData := [trvHeatingNoPos, trvIdle]

def dsB : List TRVData := [trvHeatingNoPos]

def dsC : List TRVData := [trvHeatingPos10]

/-- Environment in which every entity reports state "closed". -/
def envAllClosed : String → Option String := fun _ => some ("closed")

/-- Environment in which no entity exists. -/
def envAllMissing : String → Option String := fun _ => none

/-- The valve positions reported by heat-demanding TRVs — the set the spec
aggregates in section 4.3. -/
def specDemandingPositions (cfg : HeatConfig) (ds : List TRVData) : List ℚ :=
  (ds.filter (fun d => trvDemand cfg d)).filterMap (fun d => d.position)

/-- The spec's demandingCount: the number of TRVs resolved as demanding
heat (spec section 4.3). -/
def specDemandingCount (cfg : HeatConfig) (ds : List TRVData) : ℕ :=
  ds.countP (fun d => trvDemand cfg d)

/-- A preset-accept oracle that accepts every set_preset_mode call. -/
def okAll : String → Bool := fun _ => true

/-- A boiler reading: temperature 14, preset none, toggle state off. -/
def stCold : BoilerState :=
  { temperature := some 14, presetMode := some ("none"), state := "off" }

/-- A boiler reading already matching a 21-degree command: temperature 21,
preset none, toggle state on. -/
def stOn : BoilerState :=
  { temperature := some 21, presetMode := some ("none"), state := "on" }

/-! ## Helper lemmas about the rounding primitives -/

theorem ratFloor_eq (q : ℚ) : ratFloor q = ⌊q⌋ := Rat.floor_def.symm

theorem ratFloor_le (q : ℚ) : (ratFloor q : ℚ) ≤ q := by
  rw [ratFloor_eq]; exact Int.floor_le q

theorem lt_ratFloor_add_one (q : ℚ) : q < ratFloor q + 1 := by
  rw [ratFloor_eq]; exact_mod_cast Int.lt_floor_add_one q

theorem ratFloor_intCast (q : ℚ) (n : ℤ) (h1 : (n:ℚ) ≤ q) (h2 : q < n + 1) :
    ratFloor q = n := by
  rw [ratFloor_eq]
  exact Int.floor_eq_iff.2 ⟨h1, by exact_mod_cast h2⟩

theorem pyRound_low (q : ℚ) (n : ℤ) (h1 : (n:ℚ) ≤ q) (h2 : q - n < 1/2) :
    pyRound q = n := by
  have hf : ratFloor q = n := ratFloor_intCast q n h1 (by linarith)
  unfold pyRound
  rw [hf, if_pos (by linarith)]

theorem pyRound_high (q : ℚ) (n : ℤ) (h1 : (1:ℚ)/2 < q - n) (h2 : q < n + 1) :
    pyRound q = n + 1 := by
  have hf : ratFloor q = n := ratFloor_intCast q n (by linarith) h2
  unfold pyRound
  rw [hf, if_neg (by linarith), if_pos (by linarith)]

theorem pyRound_le_add_half (q : ℚ) : (pyRound q : ℚ) ≤ q + 1/2 := by
  have h1 := ratFloor_le q
  have h2 := lt_ratFloor_add_one q
  unfold pyRound
  split_ifs <;> push_cast <;> linarith

theorem sub_half_le_pyRound (q : ℚ) : q - 1/2 ≤ (pyRound q : ℚ) := by
  have h1 := ratFloor_le q
  have h2 := lt_ratFloor_add_one q
  unfold pyRound
  split_ifs with ha hb <;> push_cast <;> linarith

theorem pyRound_mono {x y : ℚ} (h : x ≤ y) : pyRound x ≤ pyRound y := by
  by_contra hc
  push_neg at hc
  have hc' : pyRound y + 1 ≤ pyRound x := hc
  have c1 := pyRound_le_add_half x
  have c2 := sub_half_le_pyRound y
  have hcast : (pyRound y : ℚ) + 1 ≤ (pyRound x : ℚ) := by exact_mod_cast hc'
  have hxy : x = y := le_antisymm h (by linarith)
  subst hxy
  exact lt_irrefl _ hc

theorem pyRound_intCast (n : ℤ) : pyRound (n : ℚ) = n :=
  pyRound_low _ n le_rfl (by norm_num)

theorem roundHalfDeg_mono {x y : ℚ} (h : x ≤ y) : roundHalfDeg x ≤ roundHalfDeg y := by
  unfold roundHalfDeg
  have := pyRound_mono (show x * 2 ≤ y * 2 by linarith)
  have hcast : (pyRound (x * 2) : ℚ) ≤ (pyRound (y * 2) : ℚ) := by exact_mod_cast this
  linarith

theorem roundHalfDeg_eq_self (q : ℚ) (k : ℤ) (hk : q * 2 = k) : roundHalfDeg q = q := by
  unfold roundHalfDeg
  rw [hk, pyRound_intCast, ← hk]
  ring

theorem pyClamp_mono (lo hi : ℚ) {x y : ℚ} (h : x ≤ y) :
    pyClamp lo hi x ≤ pyClamp lo hi y :=
  max_le_max le_rfl (min_le_min le_rfl h)

theorem pyClamp_ge_lo (lo hi x : ℚ) : lo ≤ pyClamp lo hi x := le_max_left _ _

/-- The clamped pre-rounding target of the dynamic calculator is
non-decreasing in the valve position on (−∞, 100]. -/
theorem clampInterp_mono (base manualOn manualOff : ℚ) {x y : ℚ}
    (hxy : x ≤ y) (hy : y ≤ 100) :
    pyClamp manualOff manualOn (dynInterp x base manualOn) ≤
    pyClamp manualOff manualOn (dynInterp y base manualOn) := by
  rcases le_or_lt y 25 with h25y | h25y
  · have hx25 : x ≤ 25 := hxy.trans h25y
    unfold dynInterp
    rw [if_pos hx25, if_pos h25y]
    apply pyClamp_mono
    have ex : base + ((base + 1/2) - base) * (x / 25) = base + x / 50 := by ring
    have ey : base + ((base + 1/2) - base) * (y / 25) = base + y / 50 := by ring
    rw [ex, ey]
    linarith
  · rcases le_or_lt x 25 with h25x | h25x
    · unfold dynInterp
      rw [if_pos h25x, if_neg (not_le.2 h25y)]
      rcases le_or_lt (base + 1/2) manualOn with hA | hA
      · apply pyClamp_mono
        have hix : base + ((base + 1/2) - base) * (x / 25) ≤ base + 1/2 := by
          have hexx : base + ((base + 1/2) - base) * (x / 25) = base + x / 50 := by ring
          rw [hexx]; linarith
        have h1 : 0 ≤ manualOn - (base + 1/2) := by linarith
        have h2 : 0 ≤ (y - 25) / 75 := by linarith
        have hiy : base + 1/2 ≤
            (base + 1/2) + (manualOn - (base + 1/2)) * ((y - 25) / 75) := by
          have := mul_nonneg h1 h2
          linarith
        linarith
      · have h1 : 0 ≤ (base + 1/2) - manualOn := by linarith
        have h2 : 0 ≤ (100 - y) / 75 := by linarith
        have hiy : manualOn ≤
            (base + 1/2) + (manualOn - (base + 1/2)) * ((y - 25) / 75) := by
          have hid : (base + 1/2) + (manualOn - (base + 1/2)) * ((y - 25) / 75)
              = manualOn + ((base + 1/2) - manualOn) * ((100 - y) / 75) := by ring
          rw [hid]
          have := mul_nonneg h1 h2
          linarith
        calc pyClamp manualOff manualOn (base + ((base + 1/2) - base) * (x / 25))
            ≤ max manualOff manualOn := max_le_max le_rfl (min_le_left _ _)
          _ = pyClamp manualOff manualOn
                ((base + 1/2) + (manualOn - (base + 1/2)) * ((y - 25) / 75)) := by
              unfold pyClamp
              rw [min_eq_left hiy]
    · unfold dynInterp
      rw [if_neg (not_le.2 h25x), if_neg (not_le.2 h25y)]
      rcases le_or_lt (base + 1/2) manualOn with hA | hA
      · apply pyClamp_mono
        have h1 : 0 ≤ manualOn - (base + 1/2) := by linarith
        have h2 : (x - 25) / 75 ≤ (y - 25) / 75 := by linarith
        have := mul_le_mul_of_nonneg_left h2 h1
        linarith
      · have hx100 : x ≤ 100 := hxy.trans hy
        have h1 : 0 ≤ (base + 1/2) - manualOn := by linarith
        have hix : manualOn ≤
            (base + 1/2) + (manualOn - (base + 1/2)) * ((x - 25) / 75) := by
          have hid : (base + 1/2) + (manualOn - (base + 1/2)) * ((x - 25) / 75)
              = manualOn + ((base + 1/2) - manualOn) * ((100 - x) / 75) := by ring
          rw [hid]
          have h2 : 0 ≤ (100 - x) / 75 := by linarith
          have := mul_nonneg h1 h2
          linarith
        have hiy : manualOn ≤
            (base + 1/2) + (manualOn - (base + 1/2)) * ((y - 25) / 75) := by
          have hid : (base + 1/2) + (manualOn - (base + 1/2)) * ((y - 25) / 75)
              = manualOn + ((base + 1/2) - manualOn) * ((100 - y) / 75) := by ring
          rw [hid]
          have h2 : 0 ≤ (100 - y) / 75 := by linarith
          have := mul_nonneg h1 h2
          linarith
        unfold pyClamp
        rw [min_eq_left hix, min_eq_left hiy]

/-! ## Claim C1 -/

/-- Claim C1 counterexample: at avgPos = 12.5 with base = 16,
manualOffTemp = 14, the code's pre-clamp target (interpolated from the
boiler base temperature at 0%) is 16.25, while the claimed formula
(interpolated from manualOffTemp at 0%) gives 15.25. -/
theorem c1_counterexample :
    dynInterp (25/2) 16 21 = 65/4 ∧
    14 + ((16 + 1/2) - 14) * ((25/2) / 25) = (61/4 : ℚ) ∧
    (65/4 : ℚ) ≠ 61/4 := by
  refine ⟨?_, by norm_num, by norm_num⟩
  unfold dynInterp
  rw [if_pos (by norm_num)]
  norm_num

/-- Claim C1 (amended): for every avgPos with 0 < avgPos ≤ 25 the dynamic
temperature calculator computes the pre-clamp target by linear
interpolation from the boiler base temperature at 0% to
anchor25 = base + 0.5 at 25% (not from manualOffTemp):
target = base + (anchor25 − base) * (avgPos / 25), then clamps and
rounds it. -/
theorem c1_interp_from_base (avgPos base manualOn manualOff : ℚ)
    (h0 : 0 < avgPos) (h25 : avgPos ≤ 25) :
    calculate_dynamic_temperature avgPos base manualOn manualOff =
      roundHalfDeg (pyClamp manualOff manualOn
        (base + ((base + 1/2) - base) * (avgPos / 25))) := by
  unfold calculate_dynamic_temperature dynInterp
  rw [if_neg (by linarith), if_pos h25]

theorem c1_interp_from_base_witness :
    calculate_dynamic_temperature 10 16 21 14 =
      roundHalfDeg (pyClamp 14 21 (16 + ((16 + 1/2) - 16) * (10 / 25))) :=
  c1_interp_from_base 10 16 21 14 (by norm_num) (by norm_num)

/-! ## Claim C5 -/

/-- Claim C5 counterexample: with base = 30, manualOnTemp = 21,
manualOffTemp = 14, the calculator at avgPos = 25 returns 21 (the anchor
30.5 is clamped to manualOnTemp before rounding), not
round(base + 0.5) = 30.5 as the claim states. -/
theorem c5_counterexample :
    calculate_dynamic_temperature 25 30 21 14 = 21 ∧
    roundHalfDeg (30 + 1/2) = 61/2 ∧
    (21 : ℚ) ≠ 61/2 := by
  refine ⟨?_, ?_, by norm_num⟩
  · unfold calculate_dynamic_temperature dynInterp
    rw [if_neg (by norm_num), if_pos (by norm_num)]
    have h1 : pyClamp 14 21 (30 + ((30 + 1/2) - 30) * (25 / 25)) = 21 := by
      unfold pyClamp
      rw [min_eq_left (by norm_num), max_eq_right (by norm_num)]
    rw [h1, roundHalfDeg_eq_self 21 42 (by norm_num)]
  · unfold roundHalfDeg
    rw [show ((30:ℚ) + 1/2) * 2 = ((61:ℤ) : ℚ) by norm_num, pyRound_intCast]
    norm_num

/-- Claim C5 (amended): calculateTarget(0) = manualOffTemp always;
calculateTarget(25) = round(clamp(base + 0.5)) — the anchor is clamped
into [manualOffTemp, manualOnTemp] before the 0.5-step rounding; and
calculateTarget(100) = manualOnTemp provided manualOffTemp ≤ manualOnTemp
and manualOnTemp is a multiple of 0.5. -/
theorem c5_boundary_values (base manualOn manualOff : ℚ) :
    calculate_dynamic_temperature 0 base manualOn manualOff = manualOff ∧
    calculate_dynamic_temperature 25 base manualOn manualOff =
      roundHalfDeg (pyClamp manualOff manualOn (base + 1/2)) ∧
    (manualOff ≤ manualOn → (∃ k : ℤ, manualOn * 2 = k) →
      calculate_dynamic_temperature 100 base manualOn manualOff = manualOn) := by
  refine ⟨?_, ?_, ?_⟩
  · unfold calculate_dynamic_temperature
    rw [if_pos le_rfl]
  · unfold calculate_dynamic_temperature dynInterp
    rw [if_neg (by norm_num), if_pos (by norm_num),
      show base + ((base + 1/2) - base) * ((25:ℚ) / 25) = base + 1/2 by ring]
  · rintro hle ⟨k, hk⟩
    unfold calculate_dynamic_temperature dynInterp
    rw [if_neg (by norm_num), if_neg (by norm_num),
      show (base + 1/2) + (manualOn - (base + 1/2)) * (((100:ℚ) - 25) / 75)
        = manualOn by ring]
    unfold pyClamp
    rw [min_self, max_eq_right hle, roundHalfDeg_eq_self manualOn k hk]

theorem c5_boundary_values_witness :
    (14 : ℚ) ≤ 21 ∧ calculate_dynamic_temperature 100 16 21 14 = 21 :=
  ⟨by norm_num, (c5_boundary_values 16 21 14).2.2 (by norm_num) ⟨42, by norm_num⟩⟩

/-! ## Claim C6 -/

/-- Claim C6 counterexample: with manualOffTemp = 14.2 (not a multiple of
0.5), base = 10, manualOnTemp = 21, the calculator returns 14.2 at
avgPos = 0 but 14.0 at avgPos = 25 (the clamped value 14.2 rounds down
to 14), so calculateTarget is not non-decreasing on [0, 100]. -/
theorem c6_counterexample :
    ¬ (calculate_dynamic_temperature 0 10 21 (71/5) ≤
       calculate_dynamic_temperature 25 10 21 (71/5)) := by
  have h0 : calculate_dynamic_temperature 0 10 21 (71/5) = 71/5 := by
    unfold calculate_dynamic_temperature
    rw [if_pos le_rfl]
  have h25 : calculate_dynamic_temperature 25 10 21 (71/5) = 14 := by
    unfold calculate_dynamic_temperature dynInterp
    rw [if_neg (by norm_num), if_pos (by norm_num)]
    have h1 : pyClamp (71/5) 21 (10 + ((10 + 1/2) - 10) * (25 / 25)) = 71/5 := by
      unfold pyClamp
      rw [min_eq_right (by norm_num), max_eq_left (by norm_num)]
    rw [h1]
    unfold roundHalfDeg
    rw [show (71:ℚ)/5 * 2 = 142/5 by norm_num,
      pyRound_low (142/5) 28 (by norm_num) (by norm_num)]
    norm_num
  rw [h0, h25]
  norm_num

/-- Claim C6 (amended): for fixed base, manualOnTemp, manualOffTemp with
manualOffTemp a multiple of 0.5, calculateTarget(avgPos) is non-decreasing
in avgPos over [0, 100]. -/
theorem c6_monotone (base manualOn manualOff : ℚ)
    (hhalf : ∃ k : ℤ, manualOff * 2 = k) (x y : ℚ)
    (_hx : 0 ≤ x) (hxy : x ≤ y) (hy : y ≤ 100) :
    calculate_dynamic_temperature x base manualOn manualOff ≤
    calculate_dynamic_temperature y base manualOn manualOff := by
  obtain ⟨k, hk⟩ := hhalf
  unfold calculate_dynamic_temperature
  by_cases hy0 : y ≤ 0
  · rw [if_pos (hxy.trans hy0), if_pos hy0]
  · rw [if_neg hy0]
    by_cases hx0 : x ≤ 0
    · rw [if_pos hx0]
      have h1 := pyClamp_ge_lo manualOff manualOn (dynInterp y base manualOn)
      have h2 := roundHalfDeg_mono h1
      rwa [roundHalfDeg_eq_self manualOff k hk] at h2
    · rw [if_neg hx0]
      exact roundHalfDeg_mono (clampInterp_mono base manualOn manualOff hxy hy)

theorem c6_monotone_witness :
    (∃ k : ℤ, (14:ℚ) * 2 = k) ∧
    calculate_dynamic_temperature 10 16 21 14 ≤
      calculate_dynamic_temperature 50 16 21 14 :=
  ⟨⟨28, by norm_num⟩,
    c6_monotone 16 21 14 ⟨28, by norm_num⟩ 10 50 (by norm_num) (by norm_num)
      (by norm_num)⟩

/-! ## Claim C7 -/

/-- The literal open-state and closed-state string sets are disjoint. -/
theorem openClosed_disjoint (s : String)
    (h1 : valveOpenStates.contains s = true)
    (h2 : valveClosedStates.contains s = true) : False := by
  have m1 : s ∈ valveOpenStates := by
    simpa using h1
  have m2 : s ∈ valveClosedStates := by
    simpa using h2
  simp only [valveOpenStates, List.mem_cons, List.mem_singleton,
    List.not_mem_nil, or_false] at m1
  rcases m1 with h | h | h | h <;> subst h <;> exact absurd h2 (by decide)

theorem classifyValveState_open (s : String)
    (h : valveOpenStates.contains s = true) : classifyValveState s = true := by
  unfold classifyValveState
  rw [if_pos h]

theorem classifyValveState_closed (s : String)
    (h : valveClosedStates.contains s = true) : classifyValveState s = false := by
  unfold classifyValveState
  rw [if_neg (fun hc => openClosed_disjoint s hc h), if_pos h]

theorem classifyValveState_other (s : String)
    (h1 : valveOpenStates.contains s = false)
    (h2 : valveClosedStates.contains s = false) : classifyValveState s = true := by
  unfold classifyValveState
  rw [if_neg (fun hc => Bool.noConfusion (h1 ▸ hc)),
    if_neg (fun hc => Bool.noConfusion (h2 ▸ hc))]

/-- The scan of get_valve_state is decided by the first pattern entity the
environment knows. -/
theorem scanValvePatterns_of_found (env : String → Option String)
    (ps : List String) (st : String) (h : firstFoundState env ps = some st) :
    scanValvePatterns env ps = classifyValveState (lowerString st) := by
  induction ps with
  | nil => exact absurd h (by simp [firstFoundState])
  | cons p ps ih =>
    unfold scanValvePatterns
    unfold firstFoundState at h
    cases hp : env p with
    | some st' =>
      rw [hp] at h
      cases h
      rfl
    | none =>
      rw [hp] at h
      exact ih h

/-- The scan of get_valve_state fails open if no pattern entity exists. -/
theorem scanValvePatterns_of_none (env : String → Option String)
    (ps : List String) (h : firstFoundState env ps = none) :
    scanValvePatterns env ps = true := by
  induction ps with
  | nil => rfl
  | cons p ps ih =>
    unfold scanValvePatterns
    unfold firstFoundState at h
    cases hp : env p with
    | some st' =>
      rw [hp] at h
      cases h
    | none =>
      rw [hp] at h
      exact ih h

/-- Claim C7 (confirmed): for every environment and TRV id, the valve-state
resolution is decided by the first sibling valve sensor found among the
pattern entities: a (lowercased) state in {open, opened, on, true} yields
open, one in {closed, off, false} yields closed, any other state yields
open; no sensor found at all (or every pattern unreachable) yields open,
and an id without a dot yields open — a missing or ambiguous valve sensor
never suppresses demand. -/
theorem c7_fail_open (env : String → Option String) (trvId : String) :
    (containsDot trvId = true →
      ((∀ st, firstFoundState env (valve_entity_patterns trvId) = some st →
        ((valveOpenStates.contains (lowerString st) = true →
            get_valve_state env trvId = true) ∧
         (valveClosedStates.contains (lowerString st) = true →
            get_valve_state env trvId = false) ∧
         (valveOpenStates.contains (lowerString st) = false →
          valveClosedStates.contains (lowerString st) = false →
            get_valve_state env trvId = true))) ∧
       (firstFoundState env (valve_entity_patterns trvId) = none →
          get_valve_state env trvId = true))) ∧
    (containsDot trvId = false → get_valve_state env trvId = true) := by
  constructor
  · intro hdot
    have hgv : get_valve_state env trvId =
        scanValvePatterns env (valve_entity_patterns trvId) := by
      unfold get_valve_state
      rw [hdot]
      rfl
    constructor
    · intro st hst
      rw [hgv, scanValvePatterns_of_found env _ st hst]
      exact ⟨classifyValveState_open _, classifyValveState_closed _,
        classifyValveState_other _⟩
    · intro hnone
      rw [hgv]
      exact scanValvePatterns_of_none env _ hnone
  · intro hdot
    unfold get_valve_state
    rw [hdot]
    rfl

theorem c7_fail_open_witness :
    get_valve_state envAllClosed ("climate.kitchen_trv") = false ∧
    get_valve_state envAllMissing ("climate.kitchen_trv") = true ∧
    get_valve_state envAllMissing ("no_dot_id") = true := by
  refine ⟨?_, ?_, ?_⟩
  · exact (((c7_fail_open envAllClosed ("climate.kitchen_trv")).1
      (by decide)).1 ("closed") rfl).2.1 (by decide)
  · exact ((c7_fail_open envAllMissing ("climate.kitchen_trv")).1
      (by decide)).2 rfl
  · exact (c7_fail_open envAllMissing ("no_dot_id")).2 (by decide)

/-! ## Polling aggregation lemmas -/

theorem pollStep_eq (cfg : HeatConfig) (b : Bool) (l : List ℚ) (d : TRVData) :
    pollStep cfg (b, l) d =
      (b || trvDemand cfg d,
       l ++ (if trvDemand cfg d && cfg.useDynamicTemperature then
               d.position.toList
             else [])) := by
  unfold pollStep
  cases hdem : trvDemand cfg d <;> cases hdyn : cfg.useDynamicTemperature <;>
    cases hpos : d.position <;> simp [Option.toList]

theorem pollAccum_go (cfg : HeatConfig) (ds : List TRVData) :
    ∀ (b : Bool) (l : List ℚ),
      ds.foldl (pollStep cfg) (b, l) =
        (b || ds.any (fun d => trvDemand cfg d),
         l ++ (if cfg.useDynamicTemperature then
                 (ds.filter (fun d => trvDemand cfg d)).filterMap
                   (fun d => d.position)
               else [])) := by
  induction ds with
  | nil =>
    intro b l
    simp
  | cons d ds ih =>
    intro b l
    rw [List.foldl_cons, pollStep_eq, ih]
    cases hdem : trvDemand cfg d <;> cases hdyn : cfg.useDynamicTemperature <;>
      cases hpos : d.position <;>
      simp [List.filter_cons, List.filterMap_cons, hdem, hdyn, hpos,
        Bool.or_assoc, List.any_cons, List.append_assoc]

/-- The polling loop computes the any-demand OR, and (with dynamic
temperature enabled) exactly the demanding TRVs' reported positions. -/
theorem pollAccum_eq (cfg : HeatConfig) (ds : List TRVData) :
    pollAccum cfg ds =
      (ds.any (fun d => trvDemand cfg d),
       if cfg.useDynamicTemperature then specDemandingPositions cfg ds
       else []) := by
  unfold pollAccum specDemandingPositions
  rw [pollAccum_go]
  simp

/-! ## Claim C2 -/

/-- Claim C2 counterexample: one demanding TRV reporting position 10% —
the exact mean of the reported positions is 10, but the cycle's aggregate
averageValvePosition is 25 (the mean rounded up to the next multiple
of 25), so the aggregate is not the arithmetic mean. -/
theorem c2_counterexample :
    specDemandingPositions cfgB dsC = [10] ∧
    (([10] : List ℚ).sum / (([10] : List ℚ).length : ℚ)) = 10 ∧
    (poll_trv_entities cfgB true 16 dsC).avgValvePosition = some 25 ∧
    (25 : ℚ) ≠ 10 := by
  refine ⟨?_, by norm_num, ?_, by norm_num⟩
  · norm_num [specDemandingPositions, dsC, trvHeatingPos10, trvDemand, cfgB,
      List.filter_cons, List.filterMap_cons]
  · norm_num [poll_trv_entities, pollAccum, pollStep, trvDemand, cfgB, dsC,
      trvHeatingPos10, round_up_to_nearest_25]

/-- Claim C2 (amended): with dynamic temperature enabled, the cycle's
aggregate averageValvePosition is the arithmetic mean of the positions
reported by demanding TRVs rounded up to the nearest multiple of 25 —
not the exact mean — and it is null exactly when no demanding TRV
reported a position. -/
theorem c2_avg_is_rounded_mean (cfg : HeatConfig) (hasBoiler : Bool)
    (base : ℚ) (ds : List TRVData)
    (hdyn : cfg.useDynamicTemperature = true) :
    ((poll_trv_entities cfg hasBoiler base ds).avgValvePosition =
      if (specDemandingPositions cfg ds).isEmpty then none
      else some (round_up_to_nearest_25
        ((specDemandingPositions cfg ds).sum /
         ((specDemandingPositions cfg ds).length : ℚ)))) ∧
    ((poll_trv_entities cfg hasBoiler base ds).avgValvePosition = none ↔
      specDemandingPositions cfg ds = []) := by
  have hps : (pollAccum cfg ds).2 = specDemandingPositions cfg ds := by
    rw [pollAccum_eq, hdyn]
    simp
  constructor
  · simp only [poll_trv_entities, hps]
  · simp only [poll_trv_entities, hps]
    by_cases he : (specDemandingPositions cfg ds).isEmpty
    · rw [if_pos he]
      simp [List.isEmpty_iff] at he
      simp [he]
    · rw [if_neg he]
      simp [List.isEmpty_iff] at he
      simp [he]

theorem c2_avg_is_rounded_mean_witness :
    (poll_trv_entities cfgB true 16 dsC).avgValvePosition = none ↔
      specDemandingPositions cfgB dsC = [] :=
  (c2_avg_is_rounded_mean cfgB true 16 dsC rfl).2

/-! ## Claims C3 and C4 -/

/-- Claim C3 (code bug evidence): with two configured TRVs of which exactly
one is resolved as demanding via the HVAC-action fallback and no TRV has a
position sensor, the number of TRVs that passed the demand policy is 1, but
the cycle's demanding-TRV count is 2 — when no demanding TRV reports a
position the code counts every configured TRV instead of the demanding
ones (lines 618 and 626). -/
theorem c3_code_eval :
    specDemandingCount cfgA dsA = 1 ∧
    (poll_trv_entities cfgA true 16 dsA).trvCountHeating = 2 := by
  constructor
  · norm_num [specDemandingCount, dsA, trvHeatingNoPos, trvIdle, trvDemand,
      cfgA, List.countP_cons]
    decide
  · norm_num [poll_trv_entities, pollAccum, pollStep, trvDemand, cfgA, dsA,
      trvHeatingNoPos, trvIdle]

/-- Claim C4 (code bug evidence): with min_trvs_heating = 2, two configured
TRVs and exactly one of them resolved as demanding (no position sensors),
the cycle reports sufficientDemand = true and drives the boiler to the
demand transition (set manual temperature 21), not to idle as the
threshold-gating claim requires — the inflated count of line 626 defeats
the minTRVsHeating threshold. -/
theorem c4_code_eval :
    cfgA.minTrvsHeating = 2 ∧
    specDemandingCount cfgA dsA = 1 ∧
    (poll_trv_entities cfgA true 16 dsA).sufficientDemand = true ∧
    (poll_trv_entities cfgA true 16 dsA).command =
      some (BoilerCommand.setManualTemp 21) := by
  refine ⟨rfl, ?_, ?_, ?_⟩
  · norm_num [specDemandingCount, dsA, trvHeatingNoPos, trvIdle, trvDemand,
      cfgA, List.countP_cons]
    decide
  · norm_num [poll_trv_entities, pollAccum, pollStep, trvDemand, cfgA, dsA,
      trvHeatingNoPos, trvIdle]
  · norm_num [poll_trv_entities, pollAccum, pollStep, trvDemand, cfgA, dsA,
      trvHeatingNoPos, trvIdle]

/-! ## Claim C9 -/

/-- round_up_to_nearest_25 always lands on a multiple of 25 in
{0, 25, 50, 75, 100}. -/
theorem round_up_to_nearest_25_mem (v : ℚ) :
    round_up_to_nearest_25 v ∈ ([0, 25, 50, 75, 100] : List ℚ) := by
  unfold round_up_to_nearest_25
  split_ifs <;> simp

/-- On [0, 100], round_up_to_nearest_25 is exactly the least multiple of 25
greater than or equal to its argument. -/
theorem round_up_to_nearest_25_eq_ceil (v : ℚ) (h0 : 0 ≤ v) (h1 : v ≤ 100) :
    round_up_to_nearest_25 v = 25 * (⌈v / 25⌉ : ℚ) := by
  unfold round_up_to_nearest_25
  split_ifs with hA hB hC hD
  · have hv : v = 0 := le_antisymm hA h0
    rw [hv]
    norm_num
  · have hc : ⌈v / 25⌉ = 1 := by
      rw [Int.ceil_eq_iff]
      push_neg at hA
      constructor
      · push_cast
        linarith
      · push_cast
        linarith
    rw [hc]
    norm_num
  · have hc : ⌈v / 25⌉ = 2 := by
      rw [Int.ceil_eq_iff]
      push_neg at hB
      constructor
      · push_cast
        linarith
      · push_cast
        linarith
    rw [hc]
    norm_num
  · have hc : ⌈v / 25⌉ = 3 := by
      rw [Int.ceil_eq_iff]
      push_neg at hC
      constructor
      · push_cast
        linarith
      · push_cast
        linarith
    rw [hc]
    norm_num
  · have hc : ⌈v / 25⌉ = 4 := by
      rw [Int.ceil_eq_iff]
      push_neg at hD
      constructor
      · push_cast
        linarith
      · push_cast
        linarith
    rw [hc]
    norm_num

/-- The mean of a nonempty list of rationals in [0, 100] lies in [0, 100]. -/
theorem mean_bounds (l : List ℚ) (hne : l ≠ [])
    (hr : ∀ p ∈ l, 0 ≤ p ∧ p ≤ 100) :
    0 ≤ l.sum / (l.length : ℚ) ∧ l.sum / (l.length : ℚ) ≤ 100 := by
  have hlen : 0 < (l.length : ℚ) := by
    have := List.length_pos.2 hne
    exact_mod_cast this
  constructor
  · apply div_nonneg
    · exact List.sum_nonneg fun p hp => (hr p hp).1
    · linarith
  · rw [div_le_iff₀ hlen]
    have := List.sum_le_card_nsmul l 100 fun p hp => (hr p hp).2
    rwa [nsmul_eq_mul, mul_comm] at this

/-- Claim C9 (confirmed): whenever a cycle (with dynamic temperature
enabled and position sensors reporting percentages in [0, 100]) produces a
non-null aggregate valve position, that aggregate is not the raw mean of
the demanding TRVs' positions but the mean rounded up to the next multiple
of 25: it equals 25 * ⌈mean / 25⌉ (so 0 for a mean of 0) and is always an
element of {0, 25, 50, 75, 100}. -/
theorem c9_avg_rounded_up (cfg : HeatConfig) (hasBoiler : Bool) (base : ℚ)
    (ds : List TRVData)
    (hdyn : cfg.useDynamicTemperature = true)
    (hrange : ∀ d ∈ ds, ∀ p : ℚ, d.position = some p → 0 ≤ p ∧ p ≤ 100) :
    ∀ q, (poll_trv_entities cfg hasBoiler base ds).avgValvePosition = some q →
      ∃ m : ℚ,
        m = (specDemandingPositions cfg ds).sum /
            ((specDemandingPositions cfg ds).length : ℚ) ∧
        q = round_up_to_nearest_25 m ∧
        q = 25 * (⌈m / 25⌉ : ℚ) ∧
        q ∈ ([0, 25, 50, 75, 100] : List ℚ) := by
  intro q hq
  have hps : (pollAccum cfg ds).2 = specDemandingPositions cfg ds := by
    rw [pollAccum_eq, hdyn]
    simp
  simp only [poll_trv_entities, hps] at hq
  by_cases he : (specDemandingPositions cfg ds).isEmpty
  · rw [if_pos he] at hq
    exact absurd hq (by simp)
  · rw [if_neg he] at hq
    have hne : specDemandingPositions cfg ds ≠ [] := by
      simpa [List.isEmpty_iff] using he
    have hmem : ∀ p ∈ specDemandingPositions cfg ds, 0 ≤ p ∧ p ≤ 100 := by
      intro p hp
      unfold specDemandingPositions at hp
      rcases List.mem_filterMap.1 hp with ⟨d, hd, hdp⟩
      exact hrange d (List.mem_of_mem_filter hd) p hdp
    have hb := mean_bounds (specDemandingPositions cfg ds) hne hmem
    refine ⟨(specDemandingPositions cfg ds).sum /
      ((specDemandingPositions cfg ds).length : ℚ), rfl, ?_, ?_, ?_⟩
    · exact (Option.some.injEq _ _ ▸ hq).symm
    · rw [← round_up_to_nearest_25_eq_ceil _ hb.1 hb.2]
      exact (Option.some.injEq _ _ ▸ hq).symm
    · rw [← (Option.some.injEq _ _ ▸ hq : round_up_to_nearest_25 _ = q)]
      exact round_up_to_nearest_25_mem _

theorem c9_avg_rounded_up_witness :
    ∃ m : ℚ,
      m = (specDemandingPositions cfgB dsC).sum /
          ((specDemandingPositions cfgB dsC).length : ℚ) ∧
      (25:ℚ) = round_up_to_nearest_25 m ∧
      (25:ℚ) = 25 * (⌈m / 25⌉ : ℚ) ∧
      (25:ℚ) ∈ ([0, 25, 50, 75, 100] : List ℚ) := by
  refine c9_avg_rounded_up cfgB true 16 dsC rfl ?_ 25 ?_
  · intro d hd p hp
    simp only [dsC, List.mem_singleton] at hd
    subst hd
    simp only [trvHeatingPos10, Option.some.injEq] at hp
    subst hp
    norm_num
  · norm_num [poll_trv_entities, pollAccum, pollStep, trvDemand, cfgB, dsC,
      trvHeatingPos10, round_up_to_nearest_25]

/-! ## Claim C10 -/

/-- Claim C10 (confirmed): in a cycle with sufficient demand, thermostat
mode and dynamic temperature enabled where no demanding TRV reported a
valve position, the controller falls back to the static behaviour: it
commands the thermostat to manual_on_temperature, publishes
manual_on_temperature as the target temperature, and never invokes the
dynamic calculator — the whole cycle result is independent of the boiler's
current temperature reading. -/
theorem c10_static_fallback (cfg : HeatConfig) (base : ℚ) (ds : List TRVData)
    (hmode : cfg.boilerMode = "thermostat")
    (hdyn : cfg.useDynamicTemperature = true)
    (hempty : specDemandingPositions cfg ds = [])
    (hsuff : (poll_trv_entities cfg true base ds).sufficientDemand = true) :
    (poll_trv_entities cfg true base ds).targetTemp = some cfg.manualOn ∧
    (poll_trv_entities cfg true base ds).command =
      some (BoilerCommand.setManualTemp cfg.manualOn) ∧
    ∀ base' : ℚ, poll_trv_entities cfg true base' ds =
      poll_trv_entities cfg true base ds := by
  have hps : (pollAccum cfg ds).2 = [] := by
    rw [pollAccum_eq, hdyn]
    simpa using hempty
  simp only [poll_trv_entities, hps, List.isEmpty_nil] at hsuff ⊢
  rw [hmode]
  simp only [hdyn, Bool.not_true, Bool.and_false, hsuff]
  simp

theorem c10_static_fallback_witness :
    (poll_trv_entities cfgB true 16 dsB).targetTemp = some cfgB.manualOn ∧
    (poll_trv_entities cfgB true 16 dsB).command =
      some (BoilerCommand.setManualTemp cfgB.manualOn) ∧
    ∀ base' : ℚ, poll_trv_entities cfgB true base' dsB =
      poll_trv_entities cfgB true 16 dsB := by
  refine c10_static_fallback cfgB 16 dsB rfl rfl ?_ ?_
  · norm_num [specDemandingPositions, dsB, trvHeatingNoPos, trvDemand, cfgB,
      List.filter_cons, List.filterMap_cons]
  · norm_num [poll_trv_entities, pollAccum, pollStep, trvDemand, cfgB, dsB,
      trvHeatingNoPos]

/-! ## Claim C8 -/

/-- Claim C8 counterexample: two consecutive thermostat-mode cycles with
identical readings (boiler reports 14, preset none) computing target 21
each issue a set_preset_mode call and a set_temperature call — four remote
writes across the two cycles, not at most one: with readings identical and
different from the computed target, the idempotence guard of the second
cycle does not short-circuit. -/
theorem c8_counterexample :
    (set_manual_temperature_thermostat (some stCold) okAll 21).length = 2 ∧
    ¬ ((set_manual_temperature_thermostat (some stCold) okAll 21 ++
        set_manual_temperature_thermostat (some stCold) okAll 21).length ≤ 1) := by
  have h21 : roundHalfDeg 21 = 21 := roundHalfDeg_eq_self 21 42 (by norm_num)
  have hw : set_manual_temperature_thermostat (some stCold) okAll 21 =
      [ServiceCall.setPresetMode ("none"), ServiceCall.setTemperature 21] := by
    simp only [set_manual_temperature_thermostat, h21, stCold]
    rw [if_neg (by norm_num)]
    simp [presetCalls, okAll]
  rw [hw]
  norm_num

/-- Claim C8 (amended): in thermostat mode a cycle issues no remote boiler
write exactly when the boiler's reported temperature already equals the
computed (0.5-rounded) target and its preset is not schedule, and in
toggle mode turn-on (turn-off) issues no write exactly when the reported
state is already on (off); consequently two consecutive cycles with
identical readings issue at most one remote write (in fact none) provided
the reading already matches the computed command — without that proviso
both cycles re-issue their writes. -/
theorem c8_idempotence_guard (st : BoilerState) (ok : String → Bool) (t : ℚ) :
    (set_manual_temperature_thermostat (some st) ok t = [] ↔
      (st.temperature.getD 0 = roundHalfDeg t ∧
       st.presetMode.getD ("none") ≠ "schedule")) ∧
    (turn_on_boiler_toggle (some st) = [] ↔ st.state = "on") ∧
    (turn_off_boiler_toggle (some st) = [] ↔ st.state = "off") ∧
    (st.temperature.getD 0 = roundHalfDeg t →
      st.presetMode.getD ("none") ≠ "schedule" →
      (set_manual_temperature_thermostat (some st) ok t ++
       set_manual_temperature_thermostat (some st) ok t).length ≤ 1) ∧
    (st.state = "on" →
      (turn_on_boiler_toggle (some st) ++
       turn_on_boiler_toggle (some st)).length ≤ 1) ∧
    (st.state = "off" →
      (turn_off_boiler_toggle (some st) ++
       turn_off_boiler_toggle (some st)).length ≤ 1) := by
  refine ⟨?_, ?_, ?_, ?_, ?_, ?_⟩
  · simp only [set_manual_temperature_thermostat]
    split_ifs with h
    · exact iff_of_true rfl h
    · constructor
      · intro hc
        exact absurd hc (by simp)
      · intro hcond
        exact absurd hcond h
  · simp only [turn_on_boiler_toggle]
    split_ifs with h
    · exact iff_of_true rfl h
    · constructor
      · intro hc
        exact absurd hc (by simp)
      · intro hcond
        exact absurd hcond h
  · simp only [turn_off_boiler_toggle]
    split_ifs with h
    · exact iff_of_true rfl h
    · constructor
      · intro hc
        exact absurd hc (by simp)
      · intro hcond
        exact absurd hcond h
  · intro h1 h2
    simp only [set_manual_temperature_thermostat]
    rw [if_pos ⟨h1, h2⟩]
    simp
  · intro h
    simp only [turn_on_boiler_toggle]
    rw [if_pos h]
    simp
  · intro h
    simp only [turn_off_boiler_toggle]
    rw [if_pos h]
    simp

theorem c8_idempotence_guard_witness :
    (set_manual_temperature_thermostat (some stOn) okAll 21 ++
     set_manual_temperature_thermostat (some stOn) okAll 21).length ≤ 1 ∧
    (turn_on_boiler_toggle (some stOn) ++
     turn_on_boiler_toggle (some stOn)).length ≤ 1 :=
  ⟨(c8_idempotence_guard stOn okAll 21).2.2.2.1
      (by rw [roundHalfDeg_eq_self 21 42 (by norm_num)]; rfl)
      (by decide),
   (c8_idempotence_guard stOn okAll 21).2.2.2.2.1 (by decide)⟩
